import Mathlib

/-!
Verification of the MCP file-manager server and client
(`file_directory_mcp_server.py`, `mcp_client.py`).

The development shallowly embeds the two Python modules:
JSON values become an inductive type, Python dicts become association
lists (insertion-ordered, as Python guarantees), and the filesystem is an
abstract capability record whose fields correspond exactly to the
`pathlib` operations the tools perform (`exists`, `is_file`, `is_dir`,
`stat().st_size`, text `open`/`read`, `iterdir`).  Fallible operations
return explicit outcome types.
-/

/-- JSON values as produced by `json.loads`.  Numbers are modelled as
integers: the protocol only uses integral ids and codes. -/
inductive JSON where
  | null
  | bool (b : Bool)
  | num (n : Int)
  | str (s : String)
  | arr (xs : List JSON)
  | obj (fields : List (String × JSON))

/-- A Python dict, insertion-ordered: the fields of a JSON object. -/
abbrev Fields := List (String × JSON)

/-- First-match lookup in an object's fields (a dict never holds a
duplicate key, so first-match is the dict lookup). -/
def lookupField : Fields → String → Option JSON
  | [], _ => none
  | (k, v) :: rest, key => if k == key then some v else lookupField rest key

/-- `d.get(k)`: the value when the key is present, Python `None`
(JSON null) when absent. -/
def pyGet (fields : Fields) (k : String) : JSON :=
  (lookupField fields k).getD JSON.null

/-- `d.get(k, dflt)`: the value when the key is present (even when that
value is `None`), `dflt` only when the key is absent. -/
def pyGetD (fields : Fields) (k : String) (dflt : JSON) : JSON :=
  (lookupField fields k).getD dflt

/-- Field access on an arbitrary JSON value; `none` when the value is not
an object or the key is absent. -/
def getField : JSON → String → Option JSON
  | JSON.obj fields, key => lookupField fields key
  | _, _ => none

/-- Whether a JSON value is an object carrying the given key. -/
def hasKey (j : JSON) (k : String) : Bool :=
  (getField j k).isSome

/-- Viewing a JSON value as a dict: `.get` on anything else raises
`AttributeError` in Python. -/
def asObj : JSON → Option Fields
  | JSON.obj fields => some fields
  | _ => none

/-- Python's `str()` on a JSON-decoded value, as interpolated into error
messages.  Composite values are abbreviated: no claim inspects them. -/
def pyStr : JSON → String
  | JSON.null => "None"
  | JSON.bool true => "True"
  | JSON.bool false => "False"
  | JSON.num n => toString n
  | JSON.str s => s
  | JSON.arr _ => "[...]"
  | JSON.obj _ => "{...}"

/-- The `<class '...'>` name appearing in the `TypeError` raised by
`pathlib.Path` on a non-string argument. -/
def pyTypeName : JSON → String
  | JSON.null => "<class 'NoneType'>"
  | JSON.bool _ => "<class 'bool'>"
  | JSON.num _ => "<class 'int'>"
  | JSON.str _ => "<class 'str'>"
  | JSON.arr _ => "<class 'list'>"
  | JSON.obj _ => "<class 'dict'>"

/-- Message of the `TypeError` raised by `Path(v)` for a non-string `v`. -/
def pathTypeErrorMsg (v : JSON) : String :=
  "argument should be a str or an os.PathLike object where __fspath__ returns a str, not "
    ++ pyTypeName v

/-! ## The filesystem capability

The tools consult the filesystem only through these operations; each
field is one `pathlib` call used by the source. -/

/-- Classification of a directory child by `item.is_file()` /
`item.is_dir()`; `other` covers entries that are neither (broken
symlinks, devices), which the listing silently omits. -/
inductive EntryKind where
  | file (size : Nat)
  | dir
  | other

/-- One entry yielded by `path_obj.iterdir()`. -/
structure DirEntry where
  name : String
  kind : EntryKind

/-- Outcome of `open(path, 'r', encoding='utf-8').read()`:
success, `UnicodeDecodeError`, or any other `OSError`-like exception. -/
inductive ReadOutcome where
  | ok (content : String)
  | decodeError
  | osError (msg : String)

/-- The filesystem as seen through `pathlib`. -/
structure FileSystem where
  exists_ : String → Bool
  isFile : String → Bool
  isDir : String → Bool
  statSize : String → Nat
  readText : String → ReadOutcome
  iterdir : String → List DirEntry

/-! ## The server (`file_directory_mcp_server.py`) -/

/-- The `list_files` descriptor registered in `MCPServer.__init__`. -/
def listFilesTool : JSON :=
  JSON.obj
    [("name", JSON.str "list_files"),
     ("description", JSON.str "List files in a directory"),
     ("inputSchema", JSON.obj
       [("type", JSON.str "object"),
        ("properties", JSON.obj
          [("path", JSON.obj
            [("type", JSON.str "string"),
             ("description", JSON.str "Directory path to list files from")])]),
        ("required", JSON.arr [JSON.str "path"])])]

/-- The `read_file` descriptor registered in `MCPServer.__init__`. -/
def readFileTool : JSON :=
  JSON.obj
    [("name", JSON.str "read_file"),
     ("description", JSON.str "Read contents of a file"),
     ("inputSchema", JSON.obj
       [("type", JSON.str "object"),
        ("properties", JSON.obj
          [("path", JSON.obj
            [("type", JSON.str "string"),
             ("description", JSON.str "File path to read")])]),
        ("required", JSON.arr [JSON.str "path"])])]

/-- `self.tools`: the registry built once in `__init__`, in insertion
order.  Nothing in the source assigns to `self.tools` after `__init__`,
so the embedding passes it as an immutable value. -/
def serverTools : Fields :=
  [("list_files", listFilesTool), ("read_file", readFileTool)]

/-- Formatting of one `iterdir` entry in `_list_files`; `none` for
entries that are neither a file nor a directory (they are skipped). -/
def formatEntry : DirEntry → Option String
  | ⟨nm, EntryKind.file sz⟩ => some ("📄 " ++ nm ++ " (" ++ toString sz ++ " bytes)")
  | ⟨nm, EntryKind.dir⟩ => some ("📁 " ++ nm ++ "/")
  | ⟨_, EntryKind.other⟩ => none

/-- Python `sorted` on strings: lexicographic by code point. -/
def strLe (a b : String) : Bool := decide (a ≤ b)

/-- `MCPServer._list_files`.  The argument is the raw JSON value from
`arguments.get("path", ".")`; a non-string makes `Path(path)` raise
`TypeError`, caught by the function's own handler. -/
def _list_files (fs : FileSystem) (path : JSON) : String :=
  match path with
  | JSON.str p =>
    if !(fs.exists_ p) then
      s!"Error: Path '{p}' does not exist"
    else if !(fs.isDir p) then
      s!"Error: Path '{p}' is not a directory"
    else
      let files := (fs.iterdir p).filterMap formatEntry
      if files.isEmpty then
        s!"Directory '{p}' is empty"
      else
        s!"Contents of '{p}':\n" ++ "\n".intercalate (files.mergeSort strLe)
  | other => "Error listing files: " ++ pathTypeErrorMsg other

/-- `MCPServer._read_file`.  Same convention for the raw JSON argument
(`arguments.get("path")` yields `None` when the key is absent). -/
def _read_file (fs : FileSystem) (path : JSON) : String :=
  match path with
  | JSON.str p =>
    if !(fs.exists_ p) then
      s!"Error: File '{p}' does not exist"
    else if !(fs.isFile p) then
      s!"Error: '{p}' is not a file"
    else if fs.statSize p > 1024 * 1024 then
      s!"Error: File '{p}' is too large (max 1MB)"
    else
      match fs.readText p with
      | ReadOutcome.ok content => s!"Contents of '{p}':\n\n{content}"
      | ReadOutcome.decodeError => s!"Error: Cannot read '{p}' - appears to be a binary file"
      | ReadOutcome.osError msg => s!"Error reading file: {msg}"
  | other => "Error reading file: " ++ pathTypeErrorMsg other

/-- A `result` response as built by `handle_request`. -/
def mkResult (rid : JSON) (result : JSON) : JSON :=
  JSON.obj [("jsonrpc", JSON.str "2.0"), ("id", rid), ("result", result)]

/-- An `error` response as built by `handle_request`. -/
def mkError (rid : JSON) (code : Int) (msg : String) : JSON :=
  JSON.obj
    [("jsonrpc", JSON.str "2.0"), ("id", rid),
     ("error", JSON.obj [("code", JSON.num code), ("message", JSON.str msg)])]

/-- The `content` wrapper around a tool's text result in `tools/call`. -/
def contentWrap (text : String) : JSON :=
  JSON.obj
    [("content", JSON.arr [JSON.obj [("type", JSON.str "text"), ("text", JSON.str text)]])]

/-- The fixed `initialize` result. -/
def initializeResult : JSON :=
  JSON.obj
    [("protocolVersion", JSON.str "2024-11-05"),
     ("capabilities", JSON.obj [("tools", JSON.obj [])]),
     ("serverInfo", JSON.obj
       [("name", JSON.str "file-manager-server"),
        ("version", JSON.str "1.0.0")])]

/-- The body of `handle_request`'s `tools/call` branch: dispatch on
`tool_name`.  A branch returning code -32603 models the surrounding
`except Exception` handler: `AttributeError` when `arguments` is present
but not a dict, and the explicit `ValueError` for an unknown tool
name. -/
def callTool (fs : FileSystem) (tool_name arguments request_id : JSON) : JSON :=
  match tool_name with
  | JSON.str "list_files" =>
    match asObj arguments with
    | none =>
      mkError request_id (-32603)
        "Internal error: 'NoneType' object has no attribute 'get'"
    | some args =>
      mkResult request_id (contentWrap (_list_files fs (pyGetD args "path" (JSON.str "."))))
  | JSON.str "read_file" =>
    match asObj arguments with
    | none =>
      mkError request_id (-32603)
        "Internal error: 'NoneType' object has no attribute 'get'"
    | some args =>
      mkResult request_id (contentWrap (_read_file fs (pyGet args "path")))
  | other =>
    mkError request_id (-32603) ("Internal error: Unknown tool: " ++ pyStr other)

/-- `MCPServer.handle_request`.  The request is a parsed JSON object
(its dict of fields); `tools` is `self.tools`.  The -32603 branch here
models the `except Exception` handler catching the `AttributeError` of
`params.get` when `params` is present but not a dict. -/
def handle_request (tools : Fields) (fs : FileSystem) (request : Fields) : JSON :=
  let request_id := pyGet request "id"
  match pyGet request "method" with
  | JSON.str "initialize" =>
    mkResult request_id initializeResult
  | JSON.str "tools/list" =>
    mkResult request_id (JSON.obj [("tools", JSON.arr (tools.map (·.2)))])
  | JSON.str "tools/call" =>
    match asObj (pyGetD request "params" (JSON.obj [])) with
    | none =>
      mkError request_id (-32603)
        "Internal error: 'NoneType' object has no attribute 'get'"
    | some params =>
      callTool fs (pyGet params "name") (pyGetD params "arguments" (JSON.obj [])) request_id
  | other =>
    mkError request_id (-32601) ("Method not found: " ++ pyStr other)

/-! ## The server's `run` loop -/

/-- One line of standard input, after `line.strip()` and `json.loads`:
blank (skipped by `if not line: continue`), a `JSONDecodeError`, or a
successfully parsed JSON value. -/
inductive InputLine where
  | blank
  | malformed (msg : String)
  | value (j : JSON)

/-- The parse-error response emitted on `JSONDecodeError`, id forced to
null. -/
def parseErrorResponse (msg : String) : JSON :=
  mkError JSON.null (-32700) ("Parse error: " ++ msg)

/-- `MCPServer.run` over a finite input: the list of response lines
printed, paired with `true` when the loop died with an uncaught
exception (a line whose JSON is not an object makes `request.get` raise
`AttributeError`, which `except json.JSONDecodeError` does not catch). -/
def run (tools : Fields) (fs : FileSystem) : List InputLine → List JSON × Bool
  | [] => ([], false)
  | InputLine.blank :: rest => run tools fs rest
  | InputLine.malformed msg :: rest =>
    let out := run tools fs rest
    (parseErrorResponse msg :: out.1, out.2)
  | InputLine.value (JSON.obj fields) :: rest =>
    let out := run tools fs rest
    (handle_request tools fs fields :: out.1, out.2)
  | InputLine.value _ :: _ => ([], true)

/-! ## The client (`mcp_client.py`) -/

/-- Client session state: `self.request_id`, initialised to 1. -/
structure MCPClient where
  request_id : Int

/-- The state after `MCPClient.__init__`. -/
def clientInit : MCPClient := ⟨1⟩

/-- Python truthiness of a JSON-like value, as tested by
`if params:`. -/
def truthy : JSON → Bool
  | JSON.null => false
  | JSON.bool b => b
  | JSON.num n => n != 0
  | JSON.str s => !s.isEmpty
  | JSON.arr xs => !xs.isEmpty
  | JSON.obj fields => !fields.isEmpty

/-- `MCPClient.send_request`: builds the request with the current id
(attaching `params` only when truthy), increments the counter, and
returns the new state with the request sent. -/
def send_request (c : MCPClient) (method : String) (params : Option JSON) :
    MCPClient × JSON :=
  let request := JSON.obj
    ([("jsonrpc", JSON.str "2.0"), ("id", JSON.num c.request_id),
      ("method", JSON.str method)] ++
     (match params with
      | some p => if truthy p then [("params", p)] else []
      | none => []))
  (⟨c.request_id + 1⟩, request)

/-- The requests produced by a sequence of `send_request` calls from a
given state. -/
def sessionRequests (c : MCPClient) : List (String × Option JSON) → List JSON
  | [] => []
  | (m, p) :: rest =>
    let step := send_request c m p
    step.2 :: sessionRequests step.1 rest

/-- The id carried by a request (0 as a junk default; every request
built by `send_request` carries a numeric id). -/
def requestIdOf (r : JSON) : Int :=
  match getField r "id" with
  | some (JSON.num n) => n
  | _ => 0

/-- The ids of the requests a fresh session sends for a given list of
calls. -/
def sessionIds (calls : List (String × Option JSON)) : List Int :=
  (sessionRequests clientInit calls).map requestIdOf

/-! ## Generic observation helpers -/

/-- `true` exactly when the response carries exactly one of the keys
`result` and `error`. -/
def exactlyOneKey (resp : JSON) : Bool :=
  (hasKey resp "result" && !hasKey resp "error") ||
  (!hasKey resp "result" && hasKey resp "error")

/-- The `error.code` of a response, when it is an error response. -/
def errorCode (resp : JSON) : Option JSON :=
  (getField resp "error").bind (fun e => getField e "code")

/-- The `result.content[0].text` of a tool-call response. -/
def respText (resp : JSON) : Option String :=
  match getField resp "result" with
  | some r =>
    match getField r "content" with
    | some (JSON.arr (JSON.obj item :: _)) =>
      match lookupField item "text" with
      | some (JSON.str t) => some t
      | _ => none
    | _ => none
  | _ => none

/-- Does `needle` occur (contiguously) at the head of `hay`? -/
def matchesAt : List Char → List Char → Bool
  | [], _ => true
  | _ :: _, [] => false
  | a :: as, b :: bs => a == b && matchesAt as bs

/-- Does `needle` occur contiguously anywhere in `hay`? -/
def hasSub (needle : List Char) : List Char → Bool
  | [] => matchesAt needle []
  | b :: bs => matchesAt needle (b :: bs) || hasSub needle bs

/-- Substring containment on strings. -/
def strContains (s sub : String) : Bool :=
  hasSub sub.data s.data

/-- A well-formed `tools/call` request as the client sends it. -/
def callRequest (rid : JSON) (name : String) (args : JSON) : Fields :=
  [("jsonrpc", JSON.str "2.0"), ("id", rid), ("method", JSON.str "tools/call"),
   ("params", JSON.obj [("name", JSON.str name), ("arguments", args)])]

/-- A minimal request carrying only a method (and an id). -/
def methodRequest (rid : JSON) (m : JSON) : Fields :=
  [("id", rid), ("method", m)]

/-- A filesystem on which nothing exists. -/
def emptyFS : FileSystem :=
  { exists_ := fun _ => false
    isFile := fun _ => false
    isDir := fun _ => false
    statSize := fun _ => 0
    readText := fun _ => ReadOutcome.osError "missing"
    iterdir := fun _ => [] }

/-- A second concrete filesystem: a single universally readable file of
exactly the size limit. -/
def tinyFS : FileSystem :=
  { exists_ := fun _ => true
    isFile := fun _ => true
    isDir := fun _ => false
    statSize := fun _ => 1048576
    readText := fun _ => ReadOutcome.ok "hello"
    iterdir := fun _ => [] }

/-- A concrete filesystem holding only files one byte over the limit. -/
def bigFS : FileSystem :=
  { exists_ := fun _ => true
    isFile := fun _ => true
    isDir := fun _ => false
    statSize := fun _ => 1048577
    readText := fun _ => ReadOutcome.ok "never seen"
    iterdir := fun _ => [] }

/-- The `name` fields of the tools listed in a `tools/list` response. -/
def namesOfTools (resp : JSON) : List JSON :=
  match getField resp "result" with
  | some r =>
    match getField r "tools" with
    | some (JSON.arr ts) => ts.filterMap (fun t => getField t "name")
    | _ => []
  | _ => []

/-! ## Claims -/

/-- Every tool dispatch yields a response with exactly one of
`result`/`error`. -/
lemma exactlyOneKey_callTool (fs : FileSystem) (tn args rid : JSON) :
    exactlyOneKey (callTool fs tn args rid) = true := by
  unfold callTool
  repeat' split
  all_goals rfl

/-- Every tool dispatch echoes the request id it was handed. -/
lemma getField_callTool_id (fs : FileSystem) (tn args rid : JSON) :
    getField (callTool fs tn args rid) "id" = some rid := by
  unfold callTool
  repeat' split
  all_goals rfl

/-- C1: for every request object and every method value (recognized or
not), `handle_request` returns a response carrying exactly one of the
keys `result` and `error` — never both and never neither. -/
theorem handle_request_exactly_one_of_result_error
    (fs : FileSystem) (request : Fields) :
    exactlyOneKey (handle_request serverTools fs request) = true := by
  unfold handle_request
  repeat' (first | split | dsimp only)
  all_goals first
    | rfl
    | exact exactlyOneKey_callTool ..

/-- C2: every response of `handle_request` carries an `id` equal to the
request's `id` field (null when absent), and the response the run loop
emits for a line that fails JSON parsing carries id null. -/
theorem handle_request_echoes_id
    (fs : FileSystem) (request : Fields) (msg : String) (rest : List InputLine) :
    getField (handle_request serverTools fs request) "id" = some (pyGet request "id") ∧
    getField ((run serverTools fs (InputLine.malformed msg :: rest)).1.headD JSON.null) "id"
      = some JSON.null := by
  constructor
  · unfold handle_request
    repeat' (first | split | dsimp only)
    all_goals first
      | rfl
      | exact getField_callTool_id ..
  · rfl

/-- C4: a `tools/list` request returns the registry as a sequence whose
names are exactly `list_files`, `read_file` in registration order, and
the response does not depend on anything but the request (the registry
is never mutated: `handle_request` is a pure function of the registry
value built in `__init__`). -/
theorem tools_list_names_stable
    (fs fs' : FileSystem) (request : Fields)
    (hm : pyGet request "method" = JSON.str "tools/list") :
    namesOfTools (handle_request serverTools fs request)
      = [JSON.str "list_files", JSON.str "read_file"] ∧
    handle_request serverTools fs request = handle_request serverTools fs' request := by
  unfold handle_request
  rw [hm]
  exact ⟨rfl, rfl⟩

/-- Witness for C4 at a concrete request, exercising two different
filesystems. -/
theorem tools_list_names_stable_witness :
    namesOfTools (handle_request serverTools emptyFS
        (methodRequest (JSON.num 7) (JSON.str "tools/list")))
      = [JSON.str "list_files", JSON.str "read_file"] ∧
    handle_request serverTools emptyFS (methodRequest (JSON.num 7) (JSON.str "tools/list"))
      = handle_request serverTools tinyFS (methodRequest (JSON.num 7) (JSON.str "tools/list")) :=
  tools_list_names_stable emptyFS tinyFS
    (methodRequest (JSON.num 7) (JSON.str "tools/list")) rfl

/-- Whether an input line makes the run loop print a response: a
`JSONDecodeError` line or a line parsing to a JSON object.  Blank lines
are skipped by `if not line: continue`; a line parsing to a non-object
kills the loop. -/
def responsive : InputLine → Bool
  | InputLine.malformed _ => true
  | InputLine.value (JSON.obj _) => true
  | _ => false

/-- C3 (counterexample): a blank input line produces no output line, so
the output count differs from the input count. -/
theorem run_skips_blank_line :
    (run serverTools emptyFS [InputLine.blank]).1.length ≠ [InputLine.blank].length := by
  decide

/-- C3 (amended): every input line that is non-blank and parses either
to a JSON object or not at all yields exactly one response line. -/
theorem run_one_response_per_effective_line
    (tools : Fields) (fs : FileSystem) (lines : List InputLine)
    (h : ∀ l ∈ lines, responsive l = true) :
    (run tools fs lines).1.length = lines.length := by
  induction lines with
  | nil => rfl
  | cons l rest ih =>
    have hl : responsive l = true := h l (List.mem_cons_self _ _)
    have hrest : ∀ x ∈ rest, responsive x = true := fun x hx => h x (List.mem_cons_of_mem _ hx)
    cases l with
    | blank => simp [responsive] at hl
    | malformed msg => simp [run, ih hrest]
    | value j =>
      cases j with
      | obj fields => simp [run, ih hrest]
      | null => simp [responsive] at hl
      | bool b => simp [responsive] at hl
      | num n => simp [responsive] at hl
      | str s => simp [responsive] at hl
      | arr xs => simp [responsive] at hl

/-- Witness for C3 (amended) on a two-line input: one malformed line
and one well-formed request. -/
theorem run_one_response_per_effective_line_witness :
    (run serverTools emptyFS
      [InputLine.malformed "x", InputLine.value (JSON.obj [])]).1.length = 2 :=
  run_one_response_per_effective_line serverTools emptyFS
    [InputLine.malformed "x", InputLine.value (JSON.obj [])] (by decide)

/-- If a needle occurs in `ys` it occurs in `xs ++ ys`. -/
lemma hasSub_append (n ys : List Char) (h : hasSub n ys = true) (xs : List Char) :
    hasSub n (xs ++ ys) = true := by
  induction xs with
  | nil => exact h
  | cons c cs ih =>
    simp only [List.cons_append, hasSub, Bool.or_eq_true]
    exact Or.inr ih

/-- Substring containment is preserved by prepending. -/
lemma strContains_append_right (s t sub : String) (h : strContains t sub = true) :
    strContains (s ++ t) sub = true := by
  unfold strContains at *
  rw [String.data_append]
  exact hasSub_append _ _ h _

/-- C5: a `tools/call` of `list_files` on a nonexistent path yields a
successful RPC result — not an RPC error — whose text is the tool's
string and contains the literal substring "does not exist". -/
theorem list_files_nonexistent_is_result_with_message
    (fs : FileSystem) (rid : JSON) (p : String) (hex : fs.exists_ p = false) :
    hasKey (handle_request serverTools fs
      (callRequest rid "list_files" (JSON.obj [("path", JSON.str p)]))) "result" = true ∧
    hasKey (handle_request serverTools fs
      (callRequest rid "list_files" (JSON.obj [("path", JSON.str p)]))) "error" = false ∧
    respText (handle_request serverTools fs
      (callRequest rid "list_files" (JSON.obj [("path", JSON.str p)])))
      = some (_list_files fs (JSON.str p)) ∧
    strContains (_list_files fs (JSON.str p)) "does not exist" = true := by
  refine ⟨rfl, rfl, rfl, ?_⟩
  have hfix : _list_files fs (JSON.str p) = s!"Error: Path '{p}' does not exist" := by
    simp [_list_files, hex]
  rw [hfix]
  show strContains ("Error: Path '" ++ (toString p ++ "' does not exist")) "does not exist" = true
  apply strContains_append_right
  apply strContains_append_right
  decide

/-- Witness for C5 on a filesystem where no path exists. -/
theorem list_files_nonexistent_is_result_with_message_witness :
    hasKey (handle_request serverTools emptyFS
      (callRequest (JSON.num 5) "list_files" (JSON.obj [("path", JSON.str "zz")]))) "result" = true ∧
    hasKey (handle_request serverTools emptyFS
      (callRequest (JSON.num 5) "list_files" (JSON.obj [("path", JSON.str "zz")]))) "error" = false ∧
    respText (handle_request serverTools emptyFS
      (callRequest (JSON.num 5) "list_files" (JSON.obj [("path", JSON.str "zz")])))
      = some (_list_files emptyFS (JSON.str "zz")) ∧
    strContains (_list_files emptyFS (JSON.str "zz")) "does not exist" = true :=
  list_files_nonexistent_is_result_with_message emptyFS (JSON.num 5) "zz" rfl

/-- C6: for a regular file, a metadata size strictly over 1,048,576
bytes makes `_read_file` return the "too large" message, with a result
independent of the reading capability (the file is never opened); a size
of exactly 1,048,576 bytes is read normally. -/
theorem read_file_size_limit_boundary (fs : FileSystem) (p c : String)
    (hex : fs.exists_ p = true) (hfile : fs.isFile p = true) :
    (fs.statSize p > 1048576 →
      _read_file fs (JSON.str p) = s!"Error: File '{p}' is too large (max 1MB)") ∧
    (fs.statSize p > 1048576 → ∀ g : String → ReadOutcome,
      _read_file { fs with readText := g } (JSON.str p) = _read_file fs (JSON.str p)) ∧
    (fs.statSize p = 1048576 → fs.readText p = ReadOutcome.ok c →
      _read_file fs (JSON.str p) = s!"Contents of '{p}':\n\n{c}") := by
  refine ⟨?_, ?_, ?_⟩
  · intro h
    simp [_read_file, hex, hfile, h]
  · intro h g
    simp [_read_file, hex, hfile, h]
  · intro hsize hread
    simp [_read_file, hex, hfile, hsize, hread]

/-- Witness for C6 at sizes 1,048,577 (rejected, never opened) and
1,048,576 (read normally). -/
theorem read_file_size_limit_boundary_witness :
    _read_file bigFS (JSON.str "f") = "Error: File 'f' is too large (max 1MB)" ∧
    _read_file { bigFS with readText := fun _ => ReadOutcome.decodeError } (JSON.str "f")
      = _read_file bigFS (JSON.str "f") ∧
    _read_file tinyFS (JSON.str "f") = "Contents of 'f':\n\nhello" :=
  ⟨(read_file_size_limit_boundary bigFS "f" "" rfl rfl).1 (by decide),
   (read_file_size_limit_boundary bigFS "f" "" rfl rfl).2.1 (by decide) _,
   (read_file_size_limit_boundary tinyFS "f" "hello" rfl rfl).2.2 rfl rfl⟩

/-- A filesystem holding only small undecodable (binary) files. -/
def binFS : FileSystem :=
  { exists_ := fun _ => true
    isFile := fun _ => true
    isDir := fun _ => false
    statSize := fun _ => 10
    readText := fun _ => ReadOutcome.decodeError
    iterdir := fun _ => [] }

/-- C7: a `tools/call` of `read_file` on a within-limit regular file
whose bytes do not decode as UTF-8 yields a successful RPC result (no
exception, no RPC error) carrying the "binary file" message. -/
theorem read_file_binary_is_result (fs : FileSystem) (rid : JSON) (p : String)
    (hex : fs.exists_ p = true) (hfile : fs.isFile p = true)
    (hsize : fs.statSize p ≤ 1048576) (hread : fs.readText p = ReadOutcome.decodeError) :
    hasKey (handle_request serverTools fs
      (callRequest rid "read_file" (JSON.obj [("path", JSON.str p)]))) "result" = true ∧
    hasKey (handle_request serverTools fs
      (callRequest rid "read_file" (JSON.obj [("path", JSON.str p)]))) "error" = false ∧
    respText (handle_request serverTools fs
      (callRequest rid "read_file" (JSON.obj [("path", JSON.str p)])))
      = some s!"Error: Cannot read '{p}' - appears to be a binary file" := by
  refine ⟨rfl, rfl, ?_⟩
  show some (_read_file fs (JSON.str p)) = _
  have hlt : ¬ fs.statSize p > 1024 * 1024 := by omega
  simp [_read_file, hex, hfile, hlt, hread]

/-- Witness for C7 on a small binary file. -/
theorem read_file_binary_is_result_witness :
    hasKey (handle_request serverTools binFS
      (callRequest (JSON.num 9) "read_file" (JSON.obj [("path", JSON.str "b")]))) "result" = true ∧
    hasKey (handle_request serverTools binFS
      (callRequest (JSON.num 9) "read_file" (JSON.obj [("path", JSON.str "b")]))) "error" = false ∧
    respText (handle_request serverTools binFS
      (callRequest (JSON.num 9) "read_file" (JSON.obj [("path", JSON.str "b")])))
      = some "Error: Cannot read 'b' - appears to be a binary file" :=
  read_file_binary_is_result binFS (JSON.num 9) "b" rfl rfl (by decide) rfl

/-- C8: a request whose method is outside
{initialize, tools/list, tools/call} gets error code -32601, while a
`tools/call` naming an unknown tool gets error code -32603 (the
`ValueError` caught by the generic handler) — two distinct failure
shapes. -/
theorem unknown_method_vs_unknown_tool_codes (fs : FileSystem) (request : Fields)
    (m : String) (hm : pyGet request "method" = JSON.str m)
    (h1 : m ≠ "initialize") (h2 : m ≠ "tools/list") (h3 : m ≠ "tools/call")
    (rid args : JSON) (n : String) (hn1 : n ≠ "list_files") (hn2 : n ≠ "read_file") :
    errorCode (handle_request serverTools fs request) = some (JSON.num (-32601)) ∧
    errorCode (handle_request serverTools fs (callRequest rid n args))
      = some (JSON.num (-32603)) := by
  constructor
  · unfold handle_request
    rw [hm]
    split <;> first | rfl | simp_all
  · show errorCode (callTool fs (JSON.str n) args rid) = some (JSON.num (-32603))
    unfold callTool
    split <;> first | rfl | simp_all

/-- Witness for C8: a bogus method and a bogus tool name. -/
theorem unknown_method_vs_unknown_tool_codes_witness :
    errorCode (handle_request serverTools emptyFS
      (methodRequest (JSON.num 3) (JSON.str "bogus"))) = some (JSON.num (-32601)) ∧
    errorCode (handle_request serverTools emptyFS
      (callRequest (JSON.num 4) "nope" (JSON.obj []))) = some (JSON.num (-32603)) :=
  unknown_method_vs_unknown_tool_codes emptyFS
    (methodRequest (JSON.num 3) (JSON.str "bogus")) "bogus" rfl
    (by decide) (by decide) (by decide)
    (JSON.num 4) (JSON.obj []) "nope" (by decide) (by decide)

/-- Starting the counter at `n`, successive `send_request` calls stamp
ids `n, n+1, n+2, ...`. -/
lemma sessionRequests_ids (n : Int) (calls : List (String × Option JSON)) :
    (sessionRequests ⟨n⟩ calls).map requestIdOf
      = (List.range calls.length).map (fun k : Nat => n + (k : Int)) := by
  induction calls generalizing n with
  | nil => rfl
  | cons c rest ih =>
    obtain ⟨m, p⟩ := c
    show requestIdOf (send_request ⟨n⟩ m p).2
        :: (sessionRequests (send_request ⟨n⟩ m p).1 rest).map requestIdOf = _
    have h1 : requestIdOf (send_request ⟨n⟩ m p).2 = n := rfl
    have h2 : (send_request ⟨n⟩ m p).1 = ⟨n + 1⟩ := rfl
    rw [h1, h2, ih]
    rw [List.length_cons, List.range_succ_eq_map, List.map_cons, List.map_map]
    refine congrArg₂ List.cons (by omega) ?_
    apply List.map_congr_left
    intro a _
    simp only [Function.comp_apply]
    omega

/-- C9: within one session the requests carry ids 1, 2, 3, ... — the
k-th request has id k, so ids are strictly increasing and never
reused. -/
theorem session_ids_strictly_increasing_from_one
    (calls : List (String × Option JSON)) :
    sessionIds calls = (List.range calls.length).map (fun k : Nat => (1 : Int) + k) ∧
    List.Pairwise (fun a b : Int => a < b) (sessionIds calls) := by
  have h2 : sessionIds calls
      = (List.range calls.length).map (fun k : Nat => (1 : Int) + k) :=
    sessionRequests_ids 1 calls
  refine ⟨h2, ?_⟩
  rw [h2]
  exact (List.pairwise_lt_range _).map _ (by intro a b hab; omega)

/-- C10: a `tools/call` of `read_file` with no `path` argument still
yields a successful RPC result: the `None` path raises `TypeError`
inside the tool, caught by its generic handler and turned into an
"Error reading file" message — while `list_files` substitutes "." for a
missing path before the tool runs. -/
theorem read_file_missing_path_caught (fs : FileSystem) (rid : JSON) :
    hasKey (handle_request serverTools fs
      (callRequest rid "read_file" (JSON.obj []))) "result" = true ∧
    hasKey (handle_request serverTools fs
      (callRequest rid "read_file" (JSON.obj []))) "error" = false ∧
    respText (handle_request serverTools fs
      (callRequest rid "read_file" (JSON.obj [])))
      = some ("Error reading file: " ++ pathTypeErrorMsg JSON.null) ∧
    respText (handle_request serverTools fs
      (callRequest rid "list_files" (JSON.obj [])))
      = some (_list_files fs (JSON.str ".")) :=
  ⟨rfl, rfl, rfl, rfl⟩
